import Mathlib

/-!
Verification development for the docker-icons HTTP service (src/index.ts).

The service resolves a Docker Hub image identifier `(namespace/)?repository.png`
to a PNG logo: official (root / `library`) images are fetched live from a fixed
URL and never cached; other namespaces are looked up in a persistent `icons`
table and, on a miss, acquired by scraping the Docker Hub page with a headless
browser, then persisted (positively or negatively).

The embedding below translates the TypeScript source:
  * `parseDockerHubImage` and the duplicated route regex
    (src/index.ts lines 4-19 and 143-153);
  * the `icons` table and its two upsert statements
    (lines 102-111, 247-252, 276-284);
  * the request handler `fetch` (lines 115-311), with the external world
    (Docker Hub page navigation, element wait, HTTP fetches) supplied by an
    `Oracle` of outcomes, and side effects (cache reads/writes, browser
    launches and closes) recorded in an `Effects` record.
-/

namespace DockerIcons

/-! ## Identifier parser

The source regex (used twice, at line 8 and line 144) is
  `^(?:([a-z0-9]+(?:[_-][a-z0-9]+)*)\/)?([a-z0-9]+(?:[_-][a-z0-9]+)*)\.png$`.
A segment is `[a-z0-9]+` followed by zero or more `[_-][a-z0-9]+` groups;
segments contain no `/` and no `.`, so a string matches iff it is
`segment ".png"` or `segment "/" segment ".png"`.
-/

/-- Character class `[a-z0-9]` of the segment grammar. -/
def isAlnum (c : Char) : Bool :=
  (('a' ≤ c) && (c ≤ 'z')) || (('0' ≤ c) && (c ≤ '9'))

/-- Separator class `[_-]` of the segment grammar. -/
def isSep (c : Char) : Bool :=
  c = '_' || c = '-'

/-- Two-state matcher for the segment grammar: the flag is true when an
alphanumeric is required next (at the start of the segment and right after
a separator, since the regex demands `[a-z0-9]+` there). -/
def segAux (b : Bool) : List Char → Bool
  | [] => !b
  | c :: cs =>
    if isAlnum c then segAux false cs
    else if isSep c then
      if b then false else segAux true cs
    else false

/-- Matches one full segment `[a-z0-9]+(?:[_-][a-z0-9]+)*`. -/
def segMatch (l : List Char) : Bool :=
  segAux true l

/-- Strips the literal suffix `.png` (the regex's anchored `\.png$`),
returning the base, or `none` when the suffix is absent. -/
def stripPng (cs : List Char) : Option (List Char) :=
  match cs.reverse with
  | 'g' :: 'n' :: 'p' :: '.' :: rest => some rest.reverse
  | _ => none

/-- Splits a string at its first `/`: returns the prefix before it and,
when a `/` occurs, the remainder after it. Segments of the regex cannot
contain `/`, so the optional group boundary sits at the first slash. -/
def breakSlash : List Char → List Char × Option (List Char)
  | [] => ([], none)
  | c :: cs =>
    if c = '/' then ([], some cs)
    else (c :: (breakSlash cs).1, (breakSlash cs).2)

/-- Core of `parseDockerHubImage` on character lists: the anchored regex
`^(?:(seg)\/)?(seg)\.png$` with its two capture groups. -/
def parseChars (cs : List Char) : Option (Option (List Char) × List Char) :=
  match stripPng cs with
  | none => none
  | some base =>
    match breakSlash base with
    | (repo, none) => if segMatch repo then some (none, repo) else none
    | (nsv, some rest) =>
      match breakSlash rest with
      | (repo, none) =>
        if segMatch nsv && segMatch repo then some (some nsv, repo) else none
      | (_, some _) => none

/-- The route guard's copy of the same regex (src/index.ts line 144),
as a bare acceptance test: `url.pathname.substring(1).match(regex)`. -/
def regexAccepts (cs : List Char) : Bool :=
  match stripPng cs with
  | none => false
  | some base =>
    match breakSlash base with
    | (repo, none) => segMatch repo
    | (nsv, some rest) =>
      match breakSlash rest with
      | (repo, none) => segMatch nsv && segMatch repo
      | (_, some _) => false

/-- Result of `parseDockerHubImage`: `\x7b namespace: string | null; repository: string \x7d`.
The `namespace` field is spelled `ns` because `namespace` is a Lean keyword. -/
structure ParsedImage where
  ns : Option String
  repository : String
deriving DecidableEq

/-- The parser of src/index.ts lines 4-19: match the regex, extract the
optional namespace group and the repository group. -/
def parseDockerHubImage (image : String) : Option ParsedImage :=
  match parseChars image.data with
  | none => none
  | some (nsv, repo) => some ⟨nsv.map String.mk, String.mk repo⟩

/-- Serialization of an identifier back to its path form
`(namespace/)?repository.png` (the inverse direction of the parser). -/
def serializeImage (p : ParsedImage) : String :=
  (match p.ns with
   | some n => n ++ "/"
   | none => "") ++ p.repository ++ ".png"

/-- Validity of an identifier: both present fields match the segment
grammar `[a-z0-9]+([_-][a-z0-9]+)*`. -/
def validImage (p : ParsedImage) : Bool :=
  (match p.ns with
   | some n => segMatch n.data
   | none => true) && segMatch p.repository.data

/-! ### Parser lemmas -/

theorem segAux_mem (l : List Char) :
    ∀ b : Bool, segAux b l = true → ∀ c ∈ l, isAlnum c = true ∨ isSep c = true := by
  induction l with
  | nil => intro b _ c hc; cases hc
  | cons c cs ih =>
    intro b h d hd
    rw [segAux] at h
    by_cases hAl : isAlnum c = true
    · rw [if_pos hAl] at h
      rcases List.mem_cons.mp hd with rfl | hd
      · exact Or.inl hAl
      · exact ih false h d hd
    · rw [if_neg hAl] at h
      by_cases hSep : isSep c = true
      · rw [if_pos hSep] at h
        cases b with
        | true => simp at h
        | false =>
          rw [if_neg (by simp)] at h
          rcases List.mem_cons.mp hd with rfl | hd
          · exact Or.inr hSep
          · exact ih true h d hd
      · rw [if_neg hSep] at h
        cases h

theorem segMatch_no_slash (l : List Char) (h : segMatch l = true) :
    ('/' : Char) ∉ l := by
  intro hmem
  rcases segAux_mem l true h '/' hmem with h1 | h1
  · simp [isAlnum] at h1
  · simp [isSep] at h1

theorem stripPng_append (base : List Char) :
    stripPng (base ++ ['.', 'p', 'n', 'g']) = some base := by
  rw [stripPng, List.reverse_append]
  simp

theorem breakSlash_no_slash (l : List Char) (h : ('/' : Char) ∉ l) :
    breakSlash l = (l, none) := by
  induction l with
  | nil => rfl
  | cons c cs ih =>
    rw [breakSlash]
    rw [if_neg (by intro hc; exact h (hc ▸ List.mem_cons_self c cs))]
    rw [ih (fun hm => h (List.mem_cons_of_mem c hm))]

theorem breakSlash_append (nsv rest : List Char) (h : ('/' : Char) ∉ nsv) :
    breakSlash (nsv ++ '/' :: rest) = (nsv, some rest) := by
  induction nsv with
  | nil => simp [breakSlash]
  | cons c cs ih =>
    rw [List.cons_append, breakSlash]
    rw [if_neg (by intro hc; exact h (hc ▸ List.mem_cons_self c cs))]
    rw [ih (fun hm => h (List.mem_cons_of_mem c hm))]

theorem regexAccepts_eq_isSome (cs : List Char) :
    regexAccepts cs = (parseChars cs).isSome := by
  rw [regexAccepts, parseChars]
  cases stripPng cs with
  | none => rfl
  | some base =>
    dsimp only
    rcases breakSlash base with ⟨repo, rest⟩
    cases rest with
    | none =>
      dsimp only
      cases segMatch repo <;> simp
    | some r =>
      dsimp only
      rcases breakSlash r with ⟨repo2, rest2⟩
      cases rest2 with
      | none =>
        dsimp only
        cases h3 : segMatch repo && segMatch repo2 <;> simp [h3]
      | some r2 =>
        rfl

/-! ## Cache Store

The `icons` table (src/index.ts lines 102-111): one row per namespace
(UNIQUE), columns `url`, `content`, `content_type`, all nullable. The
`updated_at` column is not modelled: no claim mentions it. Byte blobs
are modelled as opaque `String`s. -/

/-- One row of the `icons` table, minus `id` and `updated_at`. -/
structure Row where
  url : Option String
  content : Option String
  contentType : Option String
deriving DecidableEq

/-- The cache: a partial map from namespace to its unique row. -/
def Cache : Type :=
  String → Option Row

/-- The cache with no rows. -/
def emptyCache : Cache :=
  fun _ => none

/-- Point update of the cache at one namespace. -/
def setRow (db : Cache) (nsv : String) (r : Row) : Cache :=
  fun n => if n = nsv then some r else db n

/-- The negative upsert (src/index.ts lines 248-252):
`INSERT ... VALUES (ns, NULL, NULL, NULL) ON CONFLICT (namespace) DO UPDATE
SET url = NULL`. Note that the conflict arm updates only `url`; an existing
row keeps its `content` and `content_type`. -/
def upsertNegative (db : Cache) (nsv : String) : Cache :=
  match db nsv with
  | none => setRow db nsv ⟨none, none, none⟩
  | some r => setRow db nsv ⟨none, r.content, r.contentType⟩

/-- The positive upsert (src/index.ts lines 276-284): insert the row or, on
conflict, overwrite `url`, `content` and `content_type` with the new values. -/
def upsertPositive (db : Cache) (nsv url content contentType : String) : Cache :=
  setRow db nsv ⟨some url, some content, some contentType⟩

/-- The record invariant claimed by the spec: `content` is present iff
`sourceUrl` (column `url`) is present. -/
def rowFullyPopulated (r : Row) : Bool :=
  r.content.isSome == r.url.isSome

/-! ## The request handler

The handler (src/index.ts lines 115-311) interacts with the outside world
through `fetch`, a headless browser and the database. External outcomes are
supplied by an `Oracle`; observable side effects are counted in `Effects`. -/

/-- Outcome of `page.goto(dockerHubURL)` (line 217): a response with a
status, a null response, or a thrown navigation fault. -/
inductive NavResult
  | success (status : Nat)
  | noResponse
  | thrown
deriving DecidableEq

/-- Outcome of the `waitForSelector` / `getAttribute` block (lines 224-228):
the logo element appeared and its `src` attribute was read (possibly null),
or the wait timed out / threw (caught at line 232). -/
inductive SelResult
  | found (src : Option String)
  | failed
deriving DecidableEq

/-- Outcome of an HTTP `fetch`: the `ok` flag, the body bytes and the
`content-type` response header. -/
structure FetchResult where
  ok : Bool
  body : String
  contentType : Option String
deriving DecidableEq

/-- All external outcomes one request can consume. -/
structure Oracle where
  nav : NavResult
  sel : SelResult
  rootFetch : FetchResult
  assetFetch : FetchResult
deriving DecidableEq

/-- Body of an HTTP response: empty (`new Response(null)`), raw bytes, a
JSON error envelope with a message, or the health-check JSON. -/
inductive Body
  | empty
  | bytes (data : String)
  | jsonMessage (message : String)
  | healthJson
deriving DecidableEq

/-- An HTTP response: status plus the headers the service sets. -/
structure Resp where
  status : Nat
  body : Body
  contentType : Option String
  cacheControl : Option String
deriving DecidableEq

/-- Observable side effects of one request: `icons` SELECTs, `icons`
writes, browser launches (one per Upstream Resolver invocation), and
whether a browser was launched / closed. -/
structure Effects where
  cacheReads : Nat
  cacheWrites : Nat
  scrapes : Nat
  browserOpened : Bool
  browserClosed : Bool
deriving DecidableEq

/-- Effects of a request that never touches the `icons` table or a browser. -/
def noEffects : Effects :=
  ⟨0, 0, 0, false, false⟩

/-- The scrape-and-persist tail of the handler (src/index.ts lines 210-299),
entered after a cache miss, from the point after `browser.close()`:
given the scraped `imageSrc` and the pending `message`, either persist a
negative record and answer 404, or fetch the asset and — on non-OK — answer
502 without persisting, or persist positively and answer 200. -/
def afterScrape (o : Oracle) (db : Cache) (nsv : String)
    (imageSrc : Option String) (message : String) : Resp × Cache × Effects :=
  match imageSrc with
  | none =>
    (⟨404, Body.jsonMessage message, some "application/json", none⟩,
     upsertNegative db nsv, ⟨1, 1, 1, true, true⟩)
  | some src =>
    if o.assetFetch.ok then
      (⟨200, Body.bytes o.assetFetch.body,
        some (o.assetFetch.contentType.getD "image/png"),
        some "public, max-age=86400, stale-while-revalidate=604800"⟩,
       upsertPositive db nsv src o.assetFetch.body
         (o.assetFetch.contentType.getD "image/png"),
       ⟨1, 1, 1, true, true⟩)
    else
      (⟨502, Body.jsonMessage "failed to fetch logo", some "application/json", none⟩,
       db, ⟨1, 0, 1, true, true⟩)

/-- The scrape (src/index.ts lines 210-299): launch a browser, navigate to
the Docker Hub page, inspect the logo element, close the browser, then run
`afterScrape`. When `page.goto` throws, control jumps to the catch-all
handler at line 300: `await browser.close()` at line 245 is skipped, so the
browser stays open and the response is the generic 500. -/
def scrapeAcquire (o : Oracle) (db : Cache) (nsv repo : String) :
    Resp × Cache × Effects :=
  match o.nav with
  | NavResult.thrown =>
    (⟨500, Body.jsonMessage "Internal server error", some "application/json", none⟩,
     db, ⟨1, 0, 1, true, false⟩)
  | NavResult.success st =>
    if st = 200 then
      match o.sel with
      | SelResult.found src => afterScrape o db nsv src "Not found"
      | SelResult.failed =>
        afterScrape o db nsv none
          ("Page https://hub.docker.com/r/" ++ nsv ++ "/" ++ repo ++
            " does not have an associated image")
    else
      afterScrape o db nsv none
        ("Image `" ++ nsv ++ "/" ++ repo ++ "` does not exist on Docker Hub")
  | NavResult.noResponse =>
    afterScrape o db nsv none
      ("Image `" ++ nsv ++ "/" ++ repo ++ "` does not exist on Docker Hub")

/-- The root/official branch (src/index.ts lines 167-179): fetch the fixed
catalog URL live and answer 200 with its bytes and a one-day cache header.
The `ok` flag and status of the upstream response are never consulted, and
the `icons` table is neither read nor written. -/
def rootResponse (o : Oracle) (db : Cache) : Resp × Cache × Effects :=
  (⟨200, Body.bytes o.rootFetch.body,
    some (o.rootFetch.contentType.getD "image/png"),
    some "public, max-age=86400"⟩, db, noEffects)

/-- The full request handler (src/index.ts lines 115-311): method guard,
health check, route regex guard, semantic parse, root/official branch,
cache lookup, and the scrape path. -/
def handle (o : Oracle) (db : Cache) (method path : String) :
    Resp × Cache × Effects :=
  if method = "GET" then
    if path = "/health" then
      (⟨200, Body.healthJson, some "application/json", none⟩, db, noEffects)
    else if regexAccepts (path.drop 1).data then
      match parseDockerHubImage (path.drop 1) with
      | none =>
        (⟨400, Body.jsonMessage "the image is not a valid docker hub image",
          some "application/json", none⟩, db, noEffects)
      | some parsed =>
        match parsed.ns with
        | none => rootResponse o db
        | some nsv =>
          if nsv = "library" then rootResponse o db
          else
            match db nsv with
            | some row =>
              if row.url = none then
                (⟨404, Body.empty, none, none⟩, db, ⟨1, 0, 0, false, false⟩)
              else
                match row.content with
                | some c =>
                  (⟨200, Body.bytes c, some (row.contentType.getD "image/png"),
                    some "public, max-age=86400, stale-while-revalidate=604800"⟩,
                   db, ⟨1, 0, 0, false, false⟩)
                | none => scrapeAcquire o db nsv parsed.repository
            | none => scrapeAcquire o db nsv parsed.repository
      else
        (⟨404, Body.jsonMessage "page not found", some "application/json", none⟩,
         db, noEffects)
  else
    (⟨405, Body.bytes "Method Not Allowed", some "text/plain", none⟩, db, noEffects)

/-- Total number of Upstream Resolver invocations (browser launches) when
two requests for the same path race on an uncached namespace, under the
schedule in which both tasks complete their `icons` SELECT before either
task writes. The handler keeps no shared in-flight state other than the
database, so each racing task behaves exactly as `handle` run against the
pre-write cache. -/
def racingScrapeTotal (o1 o2 : Oracle) (db : Cache) (method path : String) : Nat :=
  (handle o1 db method path).2.2.scrapes + (handle o2 db method path).2.2.scrapes

/-! ## Concrete inputs used by witnesses and counterexamples -/

/-- A run in which every external step succeeds: page loads with 200, the
logo element carries a `src`, and both HTTP fetches are OK. -/
def oracleHappy : Oracle :=
  ⟨NavResult.success 200, SelResult.found (some "https://cdn/x.png"),
   ⟨true, "rootbytes", some "image/png"⟩, ⟨true, "logobytes", some "image/png"⟩⟩

/-- A run in which `page.goto` throws a navigation fault. -/
def oracleNavThrown : Oracle :=
  ⟨NavResult.thrown, SelResult.failed,
   ⟨true, "rootbytes", some "image/png"⟩, ⟨true, "logobytes", some "image/png"⟩⟩

/-- A run in which the logo URL is resolved but the asset fetch is non-OK. -/
def oracleAssetFail : Oracle :=
  ⟨NavResult.success 200, SelResult.found (some "https://cdn/x.png"),
   ⟨true, "rootbytes", some "image/png"⟩, ⟨false, "", none⟩⟩

/-- A run in which the root-namespace catalog fetch itself is non-OK. -/
def oracleRootFail : Oracle :=
  ⟨NavResult.success 200, SelResult.failed,
   ⟨false, "upstream error page", none⟩, ⟨true, "logobytes", some "image/png"⟩⟩

/-- A cache holding one positive record for namespace `acme`. -/
def dbPos : Cache :=
  upsertPositive emptyCache "acme" "https://cdn/x.png" "logobytes" "image/png"

/-- A cache holding one negative record for namespace `bitnami`. -/
def dbNegBitnami : Cache :=
  setRow emptyCache "bitnami" ⟨none, none, none⟩

/-! ## Helper lemmas -/

theorem parseDockerHubImage_isSome (s : String) :
    (parseDockerHubImage s).isSome = regexAccepts s.data := by
  rw [parseDockerHubImage, regexAccepts_eq_isSome]
  cases parseChars s.data with
  | none => rfl
  | some v => rcases v with ⟨a, b⟩; rfl

theorem afterScrape_status_ne_400 (o : Oracle) (db : Cache) (nsv : String)
    (src : Option String) (message : String) :
    ((afterScrape o db nsv src message).1.status == 400) = false := by
  cases src with
  | none => rfl
  | some s =>
    dsimp only [afterScrape]
    by_cases ho : o.assetFetch.ok = true
    · rw [if_pos ho]; rfl
    · rw [if_neg ho]; rfl

theorem scrapeAcquire_status_ne_400 (o : Oracle) (db : Cache) (nsv repo : String) :
    ((scrapeAcquire o db nsv repo).1.status == 400) = false := by
  rw [scrapeAcquire]
  cases o.nav with
  | thrown => rfl
  | noResponse => exact afterScrape_status_ne_400 o db nsv none _
  | success st =>
    dsimp only
    by_cases hst : st = 200
    · rw [if_pos hst]
      cases o.sel with
      | found src => exact afterScrape_status_ne_400 o db nsv src _
      | failed => exact afterScrape_status_ne_400 o db nsv none _
    · rw [if_neg hst]
      exact afterScrape_status_ne_400 o db nsv none _

theorem handle_root (o : Oracle) (db : Cache) (path repo : String)
    (hh : path ≠ "/health")
    (hp : parseDockerHubImage (path.drop 1) = some ⟨none, repo⟩ ∨
          parseDockerHubImage (path.drop 1) = some ⟨some "library", repo⟩) :
    handle o db "GET" path =
      (⟨200, Body.bytes o.rootFetch.body,
        some (o.rootFetch.contentType.getD "image/png"),
        some "public, max-age=86400"⟩, db, noEffects) := by
  have hr : regexAccepts (path.drop 1).data = true := by
    rw [← parseDockerHubImage_isSome]
    rcases hp with hp | hp <;> rw [hp] <;> rfl
  rw [handle, if_pos rfl, if_neg hh, if_pos hr]
  rcases hp with hp | hp <;> rw [hp] <;> rfl

/-! ## Claim theorems -/

/-- C1: two concurrent first-time requests for the same uncached namespace,
under the schedule in which both `icons` SELECTs complete before either
write, invoke the Upstream Resolver (a browser scrape) once each — two
invocations in total, not the single deduplicated invocation the claim
states. The handler consults no in-flight coordination state, so each racing
task runs the full scrape independently. -/
theorem c1_racing_misses_scrape_twice :
    racingScrapeTotal oracleHappy oracleHappy emptyCache "GET" "/acme/widget.png" = 2 := by
  decide

/-- C2: applying the negative upsert to a namespace that already holds a
positive record nulls `url` but leaves `content` (and `content_type`) in
place, producing a partially populated record: `content` present while
`sourceUrl` is absent, violating the claimed iff-invariant. -/
theorem c2_negative_upsert_leaves_content :
    upsertNegative dbPos "acme" "acme" =
      some ⟨none, some "logobytes", some "image/png"⟩ ∧
    rowFullyPopulated ⟨none, some "logobytes", some "image/png"⟩ = false := by
  exact ⟨by decide, by decide⟩

/-- C3 counterexample: the spec's own example `Foo_Bar!.png` of a
"semantically invalid" identifier does not match the route grammar either
(the route guard and the parser use the identical regex), so the server
answers 404 "page not found" — not the claimed 400. -/
theorem c3_malformed_gets_404_not_400 :
    (handle oracleHappy emptyCache "GET" "/Foo_Bar!.png").1.status = 404 ∧
    ((handle oracleHappy emptyCache "GET" "/Foo_Bar!.png").1.status == 400) = false ∧
    (handle oracleHappy emptyCache "GET" "/Foo_Bar!.png").1.body =
      Body.jsonMessage "page not found" := by
  exact ⟨by decide, by decide, by decide⟩

/-- C3 amended: a GET request whose path fails the identifier grammar is
answered 404 with the JSON message "page not found" and no cache access;
since the route guard and the semantic parse share one regex, no request
matches the grammar yet fails the parse, so no malformed identifier can
reach the 400 branch. -/
theorem c3_ungrammatical_path_404 (o : Oracle) (db : Cache) (path : String)
    (hh : path ≠ "/health")
    (hr : regexAccepts (path.drop 1).data = false) :
    handle o db "GET" path =
      (⟨404, Body.jsonMessage "page not found", some "application/json", none⟩,
       db, noEffects) := by
  rw [handle, if_pos rfl, if_neg hh, if_neg (by rw [hr]; exact Bool.false_ne_true)]

/-- C3 amended, witness at the spec's example path. -/
theorem c3_ungrammatical_path_404_witness :
    ("/Foo_Bar!.png" : String) ≠ "/health" ∧
    regexAccepts (("/Foo_Bar!.png" : String).drop 1).data = false ∧
    handle oracleHappy emptyCache "GET" "/Foo_Bar!.png" =
      (⟨404, Body.jsonMessage "page not found", some "application/json", none⟩,
       emptyCache, noEffects) :=
  ⟨by decide, by decide,
   c3_ungrammatical_path_404 oracleHappy emptyCache "/Foo_Bar!.png" (by decide) (by decide)⟩

/-- C4: when `page.goto` throws a navigation fault, the exception propagates
to the catch-all handler past the `await browser.close()` at line 245, so
the rendering context is opened but never released (`browserClosed = false`)
and the request ends in the generic 500 — contradicting the claim that the
browser is released on every exit path. -/
theorem c4_nav_fault_leaks_browser :
    (handle oracleNavThrown emptyCache "GET" "/acme/widget.png").2.2.browserOpened = true ∧
    (handle oracleNavThrown emptyCache "GET" "/acme/widget.png").2.2.browserClosed = false ∧
    (handle oracleNavThrown emptyCache "GET" "/acme/widget.png").1.status = 500 := by
  exact ⟨by decide, by decide, by decide⟩

/-- C5: on a cache miss for a non-root namespace, when the scrape resolves a
logo URL but the asset fetch comes back non-OK, the handler answers 502 with
the JSON message "failed to fetch logo", leaves the cache exactly as it was
and performs no write, so a later request will retry the acquisition. -/
theorem c5_delivery_failure_502_nothing_persisted (o : Oracle) (db : Cache)
    (path nsv repo src : String)
    (hh : path ≠ "/health")
    (hp : parseDockerHubImage (path.drop 1) = some ⟨some nsv, repo⟩)
    (hlib : nsv ≠ "library")
    (hmiss : db nsv = none)
    (hnav : o.nav = NavResult.success 200)
    (hsel : o.sel = SelResult.found (some src))
    (hok : o.assetFetch.ok = false) :
    handle o db "GET" path =
      (⟨502, Body.jsonMessage "failed to fetch logo", some "application/json", none⟩,
       db, ⟨1, 0, 1, true, true⟩) := by
  have hr : regexAccepts (path.drop 1).data = true := by
    rw [← parseDockerHubImage_isSome, hp]; rfl
  rw [handle, if_pos rfl, if_neg hh, if_pos hr, hp]
  dsimp only
  rw [if_neg hlib, hmiss]
  rw [scrapeAcquire, hnav]
  dsimp only
  rw [if_pos rfl, hsel]
  dsimp only [afterScrape]
  rw [if_neg (by rw [hok]; exact Bool.false_ne_true)]

/-- C5 witness: uncached `acme/widget.png`, logo URL resolved, asset fetch
non-OK. -/
theorem c5_delivery_failure_502_witness :
    parseDockerHubImage (("/acme/widget.png" : String).drop 1) =
      some ⟨some "acme", "widget"⟩ ∧
    oracleAssetFail.assetFetch.ok = false ∧
    handle oracleAssetFail emptyCache "GET" "/acme/widget.png" =
      (⟨502, Body.jsonMessage "failed to fetch logo", some "application/json", none⟩,
       emptyCache, ⟨1, 0, 1, true, true⟩) :=
  ⟨by decide, by decide,
   c5_delivery_failure_502_nothing_persisted oracleAssetFail emptyCache
     "/acme/widget.png" "acme" "widget" "https://cdn/x.png"
     (by decide) (by decide) (by decide) rfl rfl rfl (by decide)⟩

/-- C6: a request whose identifier has no namespace or the reserved
namespace `library` is answered 200 with the live upstream bytes and
`Cache-Control: public, max-age=86400`; the cache is returned unchanged and
the effects are `noEffects` — zero `icons` reads and zero writes. -/
theorem c6_root_bypasses_cache (o : Oracle) (db : Cache) (path repo : String)
    (hh : path ≠ "/health")
    (hp : parseDockerHubImage (path.drop 1) = some ⟨none, repo⟩ ∨
          parseDockerHubImage (path.drop 1) = some ⟨some "library", repo⟩) :
    handle o db "GET" path =
      (⟨200, Body.bytes o.rootFetch.body,
        some (o.rootFetch.contentType.getD "image/png"),
        some "public, max-age=86400"⟩, db, noEffects) :=
  handle_root o db path repo hh hp

/-- C6 witness: the namespaceless identifier `redis.png`. -/
theorem c6_root_bypasses_cache_witness :
    parseDockerHubImage (("/redis.png" : String).drop 1) = some ⟨none, "redis"⟩ ∧
    handle oracleHappy emptyCache "GET" "/redis.png" =
      (⟨200, Body.bytes "rootbytes", some "image/png",
        some "public, max-age=86400"⟩, emptyCache, noEffects) :=
  ⟨by decide,
   c6_root_bypasses_cache oracleHappy emptyCache "/redis.png" "redis"
     (by decide) (Or.inl (by decide))⟩

/-- C7: a namespace holding a stored negative record (`url` null) is
answered 404 with an empty body; the scrape count is zero (the Upstream
Resolver is not invoked), no write happens and the cache is unchanged. -/
theorem c7_negative_record_404_no_resolver (o : Oracle) (db : Cache)
    (path nsv repo : String) (row : Row)
    (hh : path ≠ "/health")
    (hp : parseDockerHubImage (path.drop 1) = some ⟨some nsv, repo⟩)
    (hlib : nsv ≠ "library")
    (hrow : db nsv = some row)
    (hurl : row.url = none) :
    handle o db "GET" path =
      (⟨404, Body.empty, none, none⟩, db, ⟨1, 0, 0, false, false⟩) := by
  have hr : regexAccepts (path.drop 1).data = true := by
    rw [← parseDockerHubImage_isSome, hp]; rfl
  rw [handle, if_pos rfl, if_neg hh, if_pos hr, hp]
  dsimp only
  rw [if_neg hlib, hrow]
  dsimp only
  rw [if_pos hurl]

/-- C7 witness: `bitnami` holds a negative record. -/
theorem c7_negative_record_404_witness :
    dbNegBitnami "bitnami" = some ⟨none, none, none⟩ ∧
    handle oracleHappy dbNegBitnami "GET" "/bitnami/redis.png" =
      (⟨404, Body.empty, none, none⟩, dbNegBitnami, ⟨1, 0, 0, false, false⟩) :=
  ⟨by decide,
   c7_negative_record_404_no_resolver oracleHappy dbNegBitnami
     "/bitnami/redis.png" "bitnami" "redis" ⟨none, none, none⟩
     (by decide) (by decide) (by decide) (by decide) rfl⟩

/-- C8: serializing a valid identifier to `(namespace/)?repository.png` and
parsing the result returns the original identifier. -/
theorem c8_parse_serialize_roundtrip (p : ParsedImage)
    (h : validImage p = true) :
    parseDockerHubImage (serializeImage p) = some p := by
  rcases p with ⟨nsOpt, repo⟩
  rcases repo with ⟨repod⟩
  cases nsOpt with
  | none =>
    have hrepo : segMatch repod = true := by
      simpa [validImage] using h
    have hdata : (serializeImage ⟨none, ⟨repod⟩⟩).data =
        repod ++ ['.', 'p', 'n', 'g'] := by
      simp [serializeImage]
    rw [parseDockerHubImage, hdata, parseChars, stripPng_append]
    dsimp only
    rw [breakSlash_no_slash repod (segMatch_no_slash repod hrepo)]
    dsimp only
    rw [if_pos hrepo]
    rfl
  | some n =>
    rcases n with ⟨nsd⟩
    rw [validImage] at h
    simp only [Bool.and_eq_true] at h
    obtain ⟨hns, hrepo⟩ := h
    have hdata : (serializeImage ⟨some ⟨nsd⟩, ⟨repod⟩⟩).data =
        (nsd ++ '/' :: repod) ++ ['.', 'p', 'n', 'g'] := by
      simp [serializeImage]
    rw [parseDockerHubImage, hdata, parseChars, stripPng_append]
    dsimp only
    rw [breakSlash_append nsd repod (segMatch_no_slash nsd hns)]
    dsimp only
    rw [breakSlash_no_slash repod (segMatch_no_slash repod hrepo)]
    dsimp only
    rw [if_pos (by rw [hns, hrepo]; rfl)]
    rfl

/-- C8 witness: the identifier `acme/widget`. -/
theorem c8_parse_serialize_roundtrip_witness :
    validImage ⟨some "acme", "widget"⟩ = true ∧
    parseDockerHubImage (serializeImage ⟨some "acme", "widget"⟩) =
      some ⟨some "acme", "widget"⟩ :=
  ⟨by decide, c8_parse_serialize_roundtrip ⟨some "acme", "widget"⟩ (by decide)⟩

/-- C9: the route guard and `parseDockerHubImage` use the identical regex,
so once the route guard passes the parser cannot fail: no request, whatever
the oracle, cache, method or path, is ever answered with the 400
"the image is not a valid docker hub image" response. -/
theorem c9_invalid_image_branch_unreachable (o : Oracle) (db : Cache)
    (method path : String) :
    ((handle o db method path).1.status == 400) = false := by
  rw [handle]
  by_cases hm : method = "GET"
  · rw [if_pos hm]
    by_cases hh : path = "/health"
    · rw [if_pos hh]; rfl
    · rw [if_neg hh]
      by_cases hr : regexAccepts (path.drop 1).data = true
      · rw [if_pos hr]
        rw [← parseDockerHubImage_isSome] at hr
        cases hp : parseDockerHubImage (path.drop 1) with
        | none => rw [hp] at hr; cases hr
        | some parsed =>
          dsimp only
          rcases parsed with ⟨nsOpt, repo⟩
          cases nsOpt with
          | none => rfl
          | some nsv =>
            dsimp only
            by_cases hlib : nsv = "library"
            · rw [if_pos hlib]; rfl
            · rw [if_neg hlib]
              cases hdb : db nsv with
              | none => exact scrapeAcquire_status_ne_400 o db nsv repo
              | some row =>
                dsimp only
                by_cases hurl : row.url = none
                · rw [if_pos hurl]; rfl
                · rw [if_neg hurl]
                  cases row.content with
                  | some c => rfl
                  | none => exact scrapeAcquire_status_ne_400 o db nsv repo
      · rw [if_neg hr]; rfl
  · rw [if_neg hm]; rfl

/-- C10: a root/official-namespace request is answered 200 with the
upstream body even when the upstream catalog fetch reports a non-OK status:
the root branch never consults the `ok` flag, and no 404 or 502 exists on
that path. -/
theorem c10_root_forwards_even_non_ok (o : Oracle) (db : Cache)
    (path repo : String)
    (hh : path ≠ "/health")
    (hp : parseDockerHubImage (path.drop 1) = some ⟨none, repo⟩ ∨
          parseDockerHubImage (path.drop 1) = some ⟨some "library", repo⟩)
    (_hfail : o.rootFetch.ok = false) :
    (handle o db "GET" path).1.status = 200 ∧
    (handle o db "GET" path).1.body = Body.bytes o.rootFetch.body := by
  rw [handle_root o db path repo hh hp]
  exact ⟨rfl, rfl⟩

/-- C10 witness: `library/redis.png` with a failing catalog fetch. -/
theorem c10_root_forwards_even_non_ok_witness :
    parseDockerHubImage (("/library/redis.png" : String).drop 1) =
      some ⟨some "library", "redis"⟩ ∧
    oracleRootFail.rootFetch.ok = false ∧
    (handle oracleRootFail emptyCache "GET" "/library/redis.png").1.status = 200 ∧
    (handle oracleRootFail emptyCache "GET" "/library/redis.png").1.body =
      Body.bytes "upstream error page" :=
  ⟨by decide, by decide,
   c10_root_forwards_even_non_ok oracleRootFail emptyCache "/library/redis.png"
     "redis" (by decide) (Or.inr (by decide)) (by decide)⟩

end DockerIcons
